import Mathlib

/-!
Verification of the Tachometer GUI communication bridge and logging facility.

Shallow embedding of `src/Log.py` and `src/TachometerGUI.py` (the codec in
`process_incoming_data`, the worker loop in `serial_communication_thread`,
`send_command`, the `deque(maxlen=...)` ring buffers, and the `Log` class).

Python string primitives used by the source (`str.startswith`, slicing
`s[n:]`, `str.split(',')`, `str.strip`, `int(...)`) are modelled as
executable functions on the code-point sequence of the string.  `int(...)`
is modelled for ASCII decimal literals with optional surrounding whitespace
and an optional single leading sign, which covers every literal the
protocol grammar admits.
-/

/-- Model of Python `s.startswith(pre)`: code-point prefix test. -/
def pyStartswith (s pre : String) : Bool :=
  pre.data.isPrefixOf s.data

/-- Model of Python slicing `s[n:]` (by code points). -/
def pySlice (s : String) (n : Nat) : String :=
  ⟨s.data.drop n⟩

/-- Helper for `pySplit`: walks the character list accumulating the current
field (reversed); a `,` closes the field. -/
def splitCommaAux : List Char → List Char → List String
  | [], acc => [⟨acc.reverse⟩]
  | c :: rest, acc =>
    if c = ',' then ⟨acc.reverse⟩ :: splitCommaAux rest []
    else splitCommaAux rest (c :: acc)

/-- Model of Python `s.split(',')`.  As in Python, `"".split(',') == ['']`
and adjacent separators produce empty fields. -/
def pySplit (s : String) : List String :=
  splitCommaAux s.data []

/-- ASCII whitespace, the characters `str.strip()` removes (restricted to
ASCII, which is all the transport produces). -/
def isPySpace (c : Char) : Bool :=
  c = ' ' || c = '\t' || c = '\n' || c = '\r' || c = '\x0b' || c = '\x0c'

/-- Model of Python `s.strip()`: drop leading and trailing whitespace. -/
def pyStrip (s : String) : String :=
  ⟨(((s.data.dropWhile isPySpace).reverse.dropWhile isPySpace).reverse)⟩

/-- Value of a nonempty all-digit character list, `none` otherwise. -/
def digitsVal (l : List Char) : Option Nat :=
  if l.isEmpty then none
  else l.foldl
    (fun acc c => acc.bind fun n =>
      if c.isDigit then some (10 * n + (c.toNat - 48)) else none)
    (some 0)

/-- Model of Python `int(s)`: strip whitespace, optional sign, decimal
digits; `none` models the `ValueError` that `int` raises otherwise. -/
def pyInt (s : String) : Option Int :=
  match (pyStrip s).data with
  | '-' :: rest => (digitsVal rest).map fun n => -(n : Int)
  | '+' :: rest => (digitsVal rest).map fun n => (n : Int)
  | l => (digitsVal l).map fun n => (n : Int)

/-- The typed events the codec produces; one constructor per tagged variant
pushed onto `data_queue` by `process_incoming_data` (tags `'DATA'`,
`'CONFIG'`, `'RESPONSE'`, `'SYSTEM'`, `'RAW'`). -/
inductive Event where
  | measurement (frequency rpm filtered_freq filtered_rpm total_revs
      raw_pulses pulse_interval timestamp : Int)
  | configSnapshot (ir_pin sample_period debounce_time pulses_per_rev
      timer_number : Int) (filtering_enabled : Bool)
      (filter_alpha window_size : Int)
  | response (text : String)
  | systemMessage (text : String)
  | rawLine (text : String)
  deriving DecidableEq, Repr

/-- The severity levels of `Log.py`'s `LogLevel(IntEnum)`. -/
inductive LogLevel where
  | TRACE | DEBUG | INFO | WARNING | ERROR | CRITICAL | NONE
  deriving DecidableEq, Repr

/-- The `IntEnum` value of each level (`TRACE = 0` … `NONE = 6`). -/
def LogLevel.toNat : LogLevel → Nat
  | .TRACE => 0 | .DEBUG => 1 | .INFO => 2 | .WARNING => 3
  | .ERROR => 4 | .CRITICAL => 5 | .NONE => 6

/-- The Python `level.name` of each `IntEnum` member. -/
def LogLevel.name : LogLevel → String
  | .TRACE => "TRACE" | .DEBUG => "DEBUG" | .INFO => "INFO"
  | .WARNING => "WARNING" | .ERROR => "ERROR" | .CRITICAL => "CRITICAL"
  | .NONE => "NONE"

/-- Parse the first 8 comma-separated fields with Python `int`; `none`
models the `ValueError` raised by the first failing `int(values[i])`. -/
def parse8 (values : List String) :
    Option (Int × Int × Int × Int × Int × Int × Int × Int) :=
  match (values.take 8).mapM pyInt with
  | some [a, b, c, d, e, f, g, h] => some (a, b, c, d, e, f, g, h)
  | _ => none

/-- Embedding of `TachometerGUI.process_incoming_data`.  Returns the events
put on `data_queue` (in order) and the severity of each `Log` call the
method makes, in call order.  The `try`/`except` around the body means a
failing `int(...)` yields no event and one `Log.error` call. -/
def process_incoming_data (line : String) : List Event × List LogLevel :=
  if pyStartswith line "DATA:" then
    let values := pySplit (pySlice line 5)
    if values.length ≥ 8 then
      match parse8 values with
      | some (a, b, c, d, e, f, g, h) =>
        ([.measurement a b c d e f g h], [.TRACE])
      | none => ([], [.ERROR])
    else ([], [])
  else if pyStartswith line "CONFIG:" then
    let values := pySplit (pySlice line 7)
    if values.length ≥ 8 then
      match parse8 values with
      | some (a, b, c, d, e, f, g, h) =>
        ([.configSnapshot a b c d e (f != 0) g h], [.DEBUG])
      | none => ([], [.ERROR])
    else ([], [])
  else if pyStartswith line "RESP:" then
    ([.response (pySlice line 5)], [.DEBUG])
  else if pyStartswith line "TACH:" then
    ([.systemMessage (pySlice line 5)], [.DEBUG])
  else
    ([.rawLine line], [.WARNING])

/-- The framing the worker applies to every dequeued command:
`self.serial_port.write(f"CMD:{command}\n".encode())`. -/
def encodeCommand (command : String) : String :=
  "CMD:" ++ command ++ "\n"

/-- The drain phase of the worker loop, `while not
self.command_queue.empty(): command = self.command_queue.get_nowait();
self.serial_port.write(...)`: pops the FIFO head and writes its frame,
until the queue is empty.  The queue is modelled as the list of queued
commands, oldest first. -/
def drain_commands : List String → List String
  | [] => []
  | command :: rest => encodeCommand command :: drain_commands rest

/-- One iteration of the `Running` loop of
`TachometerGUI.serial_communication_thread`: drain the command queue into
writes, then, when the transport has input (`in_waiting > 0`), read one
line, strip it, and — when nonempty — decode it, publishing the decoded
events.  `incoming = none` models `in_waiting == 0`; `incoming = some raw`
models the line `readline().decode()` returns.  Result: the transport
writes, in order, and the events published to `data_queue`. -/
def serial_iteration (cmds : List String) (incoming : Option String) :
    List String × List Event :=
  let writes := drain_commands cmds
  match incoming with
  | none => (writes, [])
  | some raw =>
    let line := pyStrip raw
    if line.data.isEmpty then (writes, [])
    else (writes, (process_incoming_data line).1)

/-- Embedding of `TachometerGUI.send_command`: given the connection flag
and the current command queue, returns the new queue and the severities of
the `Log` calls made (`Log.trace` always, then `Log.info` when queued or
`Log.warning` when dropped). -/
def send_command (is_connected : Bool) (queue : List String)
    (command : String) : List String × List LogLevel :=
  if is_connected then (queue ++ [command], [.TRACE, .INFO])
  else (queue, [.TRACE, .WARNING])

/-- Embedding of `collections.deque(maxlen := maxlen).append`: the buffer
keeps the most recent `maxlen` elements, evicting from the front. -/
def dequeAppend (maxlen : Nat) (buf : List α) (x : α) : List α :=
  let grown := buf ++ [x]
  grown.drop (grown.length - maxlen)

/-- Appending a whole sequence of values, oldest first. -/
def dequeAppendAll (maxlen : Nat) (buf : List α) (xs : List α) : List α :=
  xs.foldl (dequeAppend maxlen) buf

/-- The per-process mutable state of the `Log` class that
`set_log_file` / `close_log_file` / `get_log_file_path` touch.  File
handles are abstract tokens; `openHandles` tracks every handle opened and
not yet closed, so the at-most-one-open-sink invariant is observable. -/
structure LogState where
  log_file : Option Nat
  log_file_path : Option String
  openHandles : List Nat
  deriving DecidableEq, Repr

/-- Embedding of `Log.set_log_file`.  `openResult` models the outcome of
`open(file_path, mode)` (together with the `os.makedirs` call): `some h`
is a freshly opened handle, `none` the exception caught by the `except`
branch.  First any existing sink is closed, then the open is attempted; on
failure both `_log_file` and `_log_file_path` are cleared and `False` is
returned, on success the path is recorded and `True` is returned. -/
def set_log_file (st : LogState) (file_path : String)
    (openResult : Option Nat) : LogState × Bool :=
  let st1 :=
    match st.log_file with
    | some h => { st with log_file := none,
                          openHandles := st.openHandles.erase h }
    | none => st
  match openResult with
  | some h =>
    ({ st1 with log_file := some h, log_file_path := some file_path,
                openHandles := st1.openHandles ++ [h] }, true)
  | none =>
    ({ st1 with log_file := none, log_file_path := none }, false)

/-- Embedding of `Log.get_log_file_path`. -/
def get_log_file_path (st : LogState) : Option String :=
  st.log_file_path

/-- Embedding of `Log.close_log_file`. -/
def close_log_file (st : LogState) : LogState :=
  match st.log_file with
  | some h => { st with log_file := none, log_file_path := none,
                        openHandles := st.openHandles.erase h }
  | none => st

/-- The state invariant of the `Log` class: the recorded sink handle is
exactly the set of open handles (at most one file open at a time). -/
def LogStateInv (st : LogState) : Prop :=
  match st.log_file with
  | some h => st.openHandles = [h]
  | none => st.openHandles = []

instance (st : LogState) : Decidable (LogStateInv st) := by
  unfold LogStateInv
  match st.log_file with
  | some h => exact inferInstanceAs (Decidable (_ = _))
  | none => exact inferInstanceAs (Decidable (_ = _))

/-- The filtering condition of `Log._log`:
`level >= Log._level and Log._level != LogLevel.NONE`. -/
def shouldLog (level threshold : LogLevel) : Bool :=
  decide (threshold.toNat ≤ level.toNat) && !(threshold == .NONE)

/-- The message-formatting step of `Log._log`.  `fmt` models the Python
`%` operator `message % args`: `Except.ok` is a successful format,
`Except.error e` carries `str(e)` of the raised exception.  With no args
the message passes through; a failure degrades to the raw message plus
the error text and the argument tuple rendering (`argsText` models
`f"{args}"`). -/
def formatMessage (fmt : String → List String → Except String String)
    (argsText : List String → String)
    (message : String) (args : List String) : String :=
  if args.isEmpty then message
  else
    match fmt message args with
    | .ok formatted => formatted
    | .error e =>
      message ++ " (Format error: " ++ e ++ ", Args: " ++ argsText args ++ ")"

/-- The rendered log line of `Log._log`:
`f"{now} [{level_name}] [{thread_id}] {message}"`. -/
def logEntry (now : String) (level : LogLevel) (threadId : String)
    (message : String) : String :=
  now ++ " [" ++ level.name ++ "] [" ++ threadId ++ "] " ++ message

/-- Embedding of `Log._log`: `none` when the severity filter suppresses
the call (no output at all), otherwise the rendered entry that is written
to the configured sinks.  The function is total: a formatting failure is
absorbed by `formatMessage`, never propagated to the caller. -/
def log_call (threshold : LogLevel)
    (fmt : String → List String → Except String String)
    (argsText : List String → String) (now threadId : String)
    (level : LogLevel) (message : String) (args : List String) :
    Option String :=
  if shouldLog level threshold then
    some (logEntry now level threadId (formatMessage fmt argsText message args))
  else
    none

set_option maxRecDepth 8000

lemma pyStartswith_data (p : String) : pyStartswith ("DATA:" ++ p) "DATA:" = true := by
  simp [pyStartswith]

lemma pyStartswith_config (p : String) :
    pyStartswith ("CONFIG:" ++ p) "CONFIG:" = true := by
  simp [pyStartswith]

lemma pyStartswith_config_not_data (p : String) :
    pyStartswith ("CONFIG:" ++ p) "DATA:" = false := rfl

lemma pySlice_data (p : String) : pySlice ("DATA:" ++ p) 5 = p := rfl

lemma pySlice_config (p : String) : pySlice ("CONFIG:" ++ p) 7 = p := rfl

lemma drain_commands_eq_map (cmds : List String) :
    drain_commands cmds = cmds.map encodeCommand := by
  induction cmds with
  | nil => rfl
  | cons c rest ih => simp [drain_commands, ih]

/-- The codec never produces more than one event for a single line. -/
lemma process_incoming_data_events_le_one (line : String) :
    (process_incoming_data line).1.length ≤ 1 := by
  unfold process_incoming_data
  by_cases h1 : pyStartswith line "DATA:" = true
  · simp only [h1, if_true]
    by_cases hl : 8 ≤ (pySplit (pySlice line 5)).length
    · simp only [ge_iff_le, hl, if_true]
      rcases hp : parse8 (pySplit (pySlice line 5)) with _ | ⟨a, b, c, d, e, f, g, h8⟩ <;>
        simp
    · simp only [ge_iff_le, hl, if_false]
      simp
  · simp only [h1, Bool.false_eq_true, if_false]
    by_cases h2 : pyStartswith line "CONFIG:" = true
    · simp only [h2, if_true]
      by_cases hl : 8 ≤ (pySplit (pySlice line 7)).length
      · simp only [ge_iff_le, hl, if_true]
        rcases hp : parse8 (pySplit (pySlice line 7)) with _ | ⟨a, b, c, d, e, f, g, h8⟩ <;>
          simp
      · simp only [ge_iff_le, hl, if_false]
        simp
    · simp only [h2, Bool.false_eq_true, if_false]
      by_cases h3 : pyStartswith line "RESP:" = true
      · simp [h3]
      · simp only [h3, Bool.false_eq_true, if_false]
        by_cases h4 : pyStartswith line "TACH:" = true
        · simp [h4]
        · simp [h4]

/-- C1: a `DATA:` line whose payload is 8 comma-separated integers decodes
to exactly one Measurement event whose 8 fields are the parsed integers in
positional order (frequency, rpm, filtered frequency, filtered rpm, total
revolutions, raw pulse count, pulse interval, timestamp), and no other
event or log severity is produced besides the success trace. -/
theorem c1_data_measurement (payload : String) (n0 n1 n2 n3 n4 n5 n6 n7 : Int)
    (hlen : (pySplit payload).length = 8)
    (hparse : (pySplit payload).mapM pyInt = some [n0, n1, n2, n3, n4, n5, n6, n7]) :
    process_incoming_data ("DATA:" ++ payload) =
      ([Event.measurement n0 n1 n2 n3 n4 n5 n6 n7], [LogLevel.TRACE]) := by
  have htake : (pySplit payload).take 8 = pySplit payload := by
    rw [← hlen]; exact List.take_length _
  simp only [process_incoming_data, pyStartswith_data, pySlice_data, if_true]
  rw [if_pos (by omega : (pySplit payload).length ≥ 8)]
  unfold parse8
  rw [htake, hparse]

/-- Witness for C1 at the spec's own example line. -/
theorem c1_data_measurement_witness :
    process_incoming_data ("DATA:" ++ "50,300,48,295,120,4800,2000,123456") =
      ([Event.measurement 50 300 48 295 120 4800 2000 123456], [LogLevel.TRACE]) :=
  c1_data_measurement "50,300,48,295,120,4800,2000,123456"
    50 300 48 295 120 4800 2000 123456 (by decide) (by decide)

/-- C2 as stated is false: on a `DATA:` payload with fewer than 8 fields
the code emits no event but also logs nothing at all — there is no warning
(the `if len(values) >= 8` has no else branch), contradicting "triggers
exactly one warning log record". -/
theorem c2_counterexample :
    process_incoming_data "DATA:1,2,3" = ([], []) ∧
    ¬ (process_incoming_data "DATA:1,2,3").2.count LogLevel.WARNING = 1 := by
  decide

/-- C2 amended: a `DATA:` or `CONFIG:` line whose payload has fewer than 8
comma-separated fields produces no Measurement/ConfigSnapshot event and no
RawLine event, and triggers no log record at all — the line is silently
discarded. -/
theorem c2_short_payload_silent (payload : String)
    (hlen : (pySplit payload).length < 8) :
    process_incoming_data ("DATA:" ++ payload) = ([], []) ∧
    process_incoming_data ("CONFIG:" ++ payload) = ([], []) := by
  constructor
  · simp only [process_incoming_data, pyStartswith_data, pySlice_data, if_true]
    rw [if_neg (by omega)]
  · simp only [process_incoming_data, pyStartswith_config_not_data, pyStartswith_config,
      pySlice_config, if_true, Bool.false_eq_true, if_false]
    rw [if_neg (by omega)]

/-- Witness for the amended C2 on a three-field payload. -/
theorem c2_short_payload_silent_witness :
    process_incoming_data ("DATA:" ++ "1,2,3") = ([], []) ∧
    process_incoming_data ("CONFIG:" ++ "1,2,3") = ([], []) :=
  c2_short_payload_silent "1,2,3" (by decide)

/-- C3: in one iteration of the worker's Running loop the command queue is
drained completely, each command written framed as `CMD:<cmd>\n` in FIFO
order (the write list is the frame image of the queue, oldest first); only
after the drain is at most one line read, and the events published for the
iteration are exactly those the codec decodes from that single stripped
line (none when there is no input or the stripped line is empty, never
more than one). -/
theorem c3_worker_drain_then_read (cmds : List String) (raw : String) :
    (serial_iteration cmds (some raw)).1 = cmds.map encodeCommand ∧
    (serial_iteration cmds none).1 = cmds.map encodeCommand ∧
    (serial_iteration cmds none).2 = [] ∧
    (serial_iteration cmds (some raw)).2.length ≤ 1 ∧
    ((pyStrip raw).data.isEmpty = false →
      (serial_iteration cmds (some raw)).2 = (process_incoming_data (pyStrip raw)).1) := by
  refine ⟨?_, ?_, rfl, ?_, ?_⟩
  · unfold serial_iteration
    dsimp only
    split <;> simp [drain_commands_eq_map]
  · simp [serial_iteration, drain_commands_eq_map]
  · unfold serial_iteration
    dsimp only
    split
    · simp
    · exact process_incoming_data_events_le_one _
  · intro hne
    simp [serial_iteration, hne]

/-- Witness for C3: three queued commands are written in order A, B, C and
the read measurement line is published as one event. -/
theorem c3_worker_drain_then_read_witness :
    (serial_iteration ["SET_ALPHA:800", "RESET_ALL", "GET_CONFIG"]
        (some "DATA:1,2,3,4,5,6,7,8\r\n")).1 =
      ["CMD:SET_ALPHA:800\n", "CMD:RESET_ALL\n", "CMD:GET_CONFIG\n"] ∧
    (serial_iteration ["SET_ALPHA:800", "RESET_ALL", "GET_CONFIG"]
        (some "DATA:1,2,3,4,5,6,7,8\r\n")).2 =
      [Event.measurement 1 2 3 4 5 6 7 8] := by
  have hc := c3_worker_drain_then_read ["SET_ALPHA:800", "RESET_ALL", "GET_CONFIG"]
    "DATA:1,2,3,4,5,6,7,8\r\n"
  exact ⟨hc.1.trans (by decide), (hc.2.2.2.2 (by decide)).trans (by decide)⟩

/-- C4: `Log._log` produces output exactly when the call's level is at
least the current threshold and the threshold is not NONE; in particular
with threshold WARNING the levels below WARNING are suppressed and
WARNING/ERROR/CRITICAL pass, and with threshold NONE every level is
suppressed. -/
theorem c4_log_threshold (fmt : String → List String → Except String String)
    (argsText : List String → String) (now threadId msg : String)
    (args : List String) :
    (∀ level : LogLevel,
      log_call LogLevel.NONE fmt argsText now threadId level msg args = none) ∧
    (∀ level : LogLevel,
      (log_call LogLevel.WARNING fmt argsText now threadId level msg args).isSome = true ↔
        LogLevel.WARNING.toNat ≤ level.toNat) ∧
    (∀ level threshold : LogLevel,
      (log_call threshold fmt argsText now threadId level msg args).isSome = true ↔
        (threshold.toNat ≤ level.toNat ∧ threshold ≠ LogLevel.NONE)) := by
  refine ⟨?_, ?_, ?_⟩
  · intro level
    simp [log_call, shouldLog]
  · intro level
    cases level <;> simp [log_call, shouldLog, LogLevel.toNat]
  · intro level threshold
    cases level <;> cases threshold <;> simp [log_call, shouldLog, LogLevel.toNat]

/-- C5: when formatting the message with its arguments fails, `Log._log`
does not propagate the failure (the embedding is total and still returns
an entry); the emitted record carries the original unformatted message
followed by the error text and the raw argument tuple. -/
theorem c5_format_failure (fmt : String → List String → Except String String)
    (argsText : List String → String) (now threadId msg e : String)
    (args : List String) (level threshold : LogLevel)
    (hargs : args ≠ [])
    (hfmt : fmt msg args = .error e)
    (hpass : shouldLog level threshold = true) :
    log_call threshold fmt argsText now threadId level msg args =
      some (logEntry now level threadId
        (msg ++ " (Format error: " ++ e ++ ", Args: " ++ argsText args ++ ")")) := by
  simp [log_call, hpass, formatMessage, hargs, hfmt]

/-- Witness for C5: a failing percent-format at INFO level under a DEBUG
threshold degrades to the raw message plus error and arguments. -/
theorem c5_format_failure_witness :
    log_call LogLevel.DEBUG (fun _ _ => Except.error "unsupported format character")
      (fun _ => "('7',)") "2026-10-12 00:00:00.000" "12345" LogLevel.INFO
      "alpha set to %q" ["7"] =
      some (logEntry "2026-10-12 00:00:00.000" LogLevel.INFO "12345"
        ("alpha set to %q" ++ " (Format error: " ++ "unsupported format character" ++
          ", Args: " ++ "('7',)" ++ ")")) :=
  c5_format_failure (fun _ _ => Except.error "unsupported format character")
    (fun _ => "('7',)") "2026-10-12 00:00:00.000" "12345" "alpha set to %q"
    "unsupported format character" ["7"] LogLevel.INFO LogLevel.DEBUG
    (by decide) rfl (by decide)

/-- C6: `set_log_file` closes any previously open sink first, so at most
one sink is ever open and the invariant is preserved; on an open failure
it returns false leaving no sink and no recorded path; on success it
returns true and the path is observable via `get_log_file_path`. -/
theorem c6_set_log_file (st : LogState) (file_path : String)
    (openResult : Option Nat)
    (hinv : LogStateInv st)
    (hfresh : ∀ h, openResult = some h → h ∉ st.openHandles) :
    LogStateInv (set_log_file st file_path openResult).1 ∧
    (set_log_file st file_path openResult).1.openHandles.length ≤ 1 ∧
    (openResult = none →
      (set_log_file st file_path openResult).2 = false ∧
      (set_log_file st file_path openResult).1.log_file = none ∧
      get_log_file_path (set_log_file st file_path openResult).1 = none) ∧
    (∀ h, openResult = some h →
      (set_log_file st file_path openResult).2 = true ∧
      get_log_file_path (set_log_file st file_path openResult).1 = some file_path) ∧
    (∀ h0, st.log_file = some h0 →
      h0 ∉ (set_log_file st file_path openResult).1.openHandles) := by
  obtain ⟨lf, lp, oh⟩ := st
  unfold LogStateInv at hinv
  rcases lf with _ | h0 <;> rcases openResult with _ | h <;>
    simp_all [set_log_file, LogStateInv, get_log_file_path]
  omega

/-- Witness for C6: reconfiguring from an open sink (handle 1) to a fresh
handle 2 keeps the invariant, closes handle 1, and records the new path. -/
theorem c6_set_log_file_witness :
    LogStateInv (set_log_file ⟨some 1, some "old.log", [1]⟩ "new.log" (some 2)).1 ∧
    (set_log_file ⟨some 1, some "old.log", [1]⟩ "new.log" (some 2)).2 = true ∧
    get_log_file_path (set_log_file ⟨some 1, some "old.log", [1]⟩ "new.log" (some 2)).1 =
      some "new.log" ∧
    1 ∉ (set_log_file ⟨some 1, some "old.log", [1]⟩ "new.log" (some 2)).1.openHandles := by
  have hc := c6_set_log_file ⟨some 1, some "old.log", [1]⟩ "new.log" (some 2)
    (by decide) (by intro h hh; cases hh; decide)
  exact ⟨hc.1, (hc.2.2.2.1 2 rfl).1, (hc.2.2.2.1 2 rfl).2, hc.2.2.2.2 1 rfl⟩

/-- C7: a line that starts with none of the four recognized tags decodes
to exactly one RawLine event carrying the full original line, and the only
log call made for it is a warning. -/
theorem c7_unknown_tag (line : String)
    (h1 : pyStartswith line "DATA:" = false)
    (h2 : pyStartswith line "CONFIG:" = false)
    (h3 : pyStartswith line "RESP:" = false)
    (h4 : pyStartswith line "TACH:" = false) :
    process_incoming_data line = ([Event.rawLine line], [LogLevel.WARNING]) := by
  simp [process_incoming_data, h1, h2, h3, h4]

/-- Witness for C7 at the spec's example line `FOO:bar`. -/
theorem c7_unknown_tag_witness :
    process_incoming_data "FOO:bar" = ([Event.rawLine "FOO:bar"], [LogLevel.WARNING]) :=
  c7_unknown_tag "FOO:bar" rfl rfl rfl rfl

/-- C8 as stated is false in its last part: after appending 1..149 to an
empty capacity-100 buffer the oldest element is 50 — the value the 150th
append evicts — and the 1st value is no longer in the buffer at all (it
was evicted by the 101st append), so the 150th append cannot evict it. -/
theorem c8_counterexample :
    (dequeAppendAll 100 ([] : List Nat) (List.range' 1 149)).head? = some 50 ∧
    1 ∉ dequeAppendAll 100 ([] : List Nat) (List.range' 1 149) ∧
    dequeAppend 100 (dequeAppendAll 100 ([] : List Nat) (List.range' 1 149)) 150 =
      List.range' 51 100 := by
  decide

/-- C8 amended: an append while at capacity 100 evicts exactly the single
oldest element before inserting; appending 150 sequential values leaves
exactly the last 100 in insertion order; and it is the 101st append (not
the 150th) that evicts the 1st value. -/
theorem c8_ring_eviction (buf : List Nat) (x : Nat) (h : buf.length = 100) :
    dequeAppend 100 buf x = buf.tail ++ [x] ∧
    dequeAppendAll 100 ([] : List Nat) (List.range' 1 150) = List.range' 51 100 ∧
    dequeAppend 100 (dequeAppendAll 100 ([] : List Nat) (List.range' 1 100)) 101 =
      List.range' 2 100 := by
  refine ⟨?_, by decide, by decide⟩
  show (buf ++ [x]).drop ((buf ++ [x]).length - 100) = buf.tail ++ [x]
  have hl : (buf ++ [x]).length - 100 = 1 := by simp [h]
  rw [hl, List.drop_append_of_le_length (by omega), List.drop_one]

/-- Witness for the amended C8 on a concrete full buffer. -/
theorem c8_ring_eviction_witness :
    dequeAppend 100 (List.range' 0 100) 7 = (List.range' 0 100).tail ++ [7] ∧
    dequeAppendAll 100 ([] : List Nat) (List.range' 1 150) = List.range' 51 100 ∧
    dequeAppend 100 (dequeAppendAll 100 ([] : List Nat) (List.range' 1 100)) 101 =
      List.range' 2 100 :=
  c8_ring_eviction (List.range' 0 100) 7 (by decide)

/-- C9: a `DATA:` or `CONFIG:` payload with more than 8 comma-separated
fields whose first 8 fields parse as integers still yields the Measurement
or ConfigSnapshot built from the first 8 fields — the extra fields are
silently ignored because the length check is at-least-8. -/
theorem c9_extra_fields (payload : String) (n0 n1 n2 n3 n4 n5 n6 n7 : Int)
    (hlen : 8 < (pySplit payload).length)
    (hparse : ((pySplit payload).take 8).mapM pyInt = some [n0, n1, n2, n3, n4, n5, n6, n7]) :
    process_incoming_data ("DATA:" ++ payload) =
      ([Event.measurement n0 n1 n2 n3 n4 n5 n6 n7], [LogLevel.TRACE]) ∧
    process_incoming_data ("CONFIG:" ++ payload) =
      ([Event.configSnapshot n0 n1 n2 n3 n4 (n5 != 0) n6 n7], [LogLevel.DEBUG]) := by
  constructor
  · simp only [process_incoming_data, pyStartswith_data, pySlice_data, if_true]
    rw [if_pos (by omega : (pySplit payload).length ≥ 8)]
    unfold parse8
    rw [hparse]
  · simp only [process_incoming_data, pyStartswith_config_not_data, pyStartswith_config,
      pySlice_config, if_true, Bool.false_eq_true, if_false]
    rw [if_pos (by omega : (pySplit payload).length ≥ 8)]
    unfold parse8
    rw [hparse]

/-- Witness for C9 on a nine-field payload. -/
theorem c9_extra_fields_witness :
    process_incoming_data ("DATA:" ++ "1,2,3,4,5,6,7,8,9") =
      ([Event.measurement 1 2 3 4 5 6 7 8], [LogLevel.TRACE]) ∧
    process_incoming_data ("CONFIG:" ++ "1,2,3,4,5,6,7,8,9") =
      ([Event.configSnapshot 1 2 3 4 5 (6 != 0) 7 8], [LogLevel.DEBUG]) :=
  c9_extra_fields "1,2,3,4,5,6,7,8,9" 1 2 3 4 5 6 7 8 (by decide) (by decide)

/-- C10: `send_command` with the connection flag false leaves the command
queue unchanged (so the worker can never transmit anything for that call)
and logs a warning after the entry trace; a command is enqueued if and
only if the connection flag is true at the time of the call. -/
theorem c10_send_command_gate (queue : List String) (command : String) :
    (send_command false queue command).1 = queue ∧
    (send_command false queue command).2 = [LogLevel.TRACE, LogLevel.WARNING] ∧
    ∀ b : Bool, ((send_command b queue command).1 = queue ++ [command] ↔ b = true) := by
  refine ⟨rfl, rfl, ?_⟩
  intro b
  cases b <;> simp [send_command]
